import Mathlib

/-!
Verification development for the TikTok-Chat-Reader server core:
the per-session connection lifecycle manager (`TikTokConnectionWrapper`
in `connectionWrapper.js`) and the admission controller
(`clientBlocked` in `limiter.js`), embedded shallowly as executable
Lean definitions with the module-level mutable state passed explicitly.
-/

namespace TikTokChatReader

/-! ## Admission controller (src/limiter.js)

`ipRequestCounts` is a module-global `Map` from IP string to request
count; we pass it explicitly as a function `String → Nat` (a JS `Map.get`
with `|| 0` default).  Sockets are modelled by the fields the limiter
reads: `handshake.address` and `handshake.headers['x-forwarded-for']`,
each `Option String` (with the empty string separately representing a
falsy-but-present JS value). -/

structure Handshake where
  address : Option String
  xForwardedFor : Option String
deriving DecidableEq

structure NetSocket where
  handshake : Option Handshake
deriving DecidableEq

def MAX_IP_CONNECTIONS : Nat := 10

def MAX_IP_REQUESTS_PER_MINUTE : Nat := 5

/-- `getSocketIp` (limiter.js lines 67–74): `null`/falsy handshake or
address yields `none`; a loopback marker address defers to the
`x-forwarded-for` header (`|| null` turns a missing or empty header into
`none`); otherwise the handshake address itself is the identity. -/
def getSocketIp (sock : NetSocket) : Option String :=
  match sock.handshake with
  | none => none
  | some h =>
      match h.address with
      | none => none
      | some a =>
          if a = "" then none
          else if a = "::1" ∨ a = "::ffff:127.0.0.1" then
            match h.xForwardedFor with
            | none => none
            | some f => if f = "" then none else some f
          else some a

/-- `getOverallIpConnectionCounts` (limiter.js lines 49–60): per-IP count
of the currently connected sockets whose IP resolves, as a total function
defaulting to 0 (a JS `Map.get(ip) || 0`). -/
def getOverallIpConnectionCounts (io : List NetSocket) : String → Nat :=
  fun ip => (io.filter (fun s => getSocketIp s = some ip)).length

/-- Result of one `clientBlocked` call: the returned boolean, whether a
`console.warn` was issued, and the updated `ipRequestCounts` state. -/
structure BlockResult where
  blocked : Bool
  warned : Bool
  reqCounts : String → Nat

/-- `clientBlocked` (limiter.js lines 17–42).  Fail-open (with a warning)
when the IP cannot be resolved; otherwise the request count is read,
then incremented, and the pre-increment value is compared with a strict
`>` against both ceilings (connections first). -/
def clientBlocked (io : List NetSocket) (reqCounts : String → Nat)
    (sock : NetSocket) : BlockResult :=
  match getSocketIp sock with
  | none => { blocked := false, warned := true, reqCounts := reqCounts }
  | some ip =>
      let conns := getOverallIpConnectionCounts io ip
      let reqs := reqCounts ip
      let reqCounts2 : String → Nat := fun x => if x = ip then reqs + 1 else reqCounts x
      if MAX_IP_CONNECTIONS < conns then
        { blocked := true, warned := true, reqCounts := reqCounts2 }
      else if MAX_IP_REQUESTS_PER_MINUTE < reqs then
        { blocked := true, warned := true, reqCounts := reqCounts2 }
      else
        { blocked := false, warned := false, reqCounts := reqCounts2 }

/-- The 60-second interval handler (limiter.js lines 7–9):
`ipRequestCounts.clear()`. -/
def clearRequestCounts : String → Nat := fun _ => 0

/-! Concrete scenario material for the admission claims: one fixed
identity making successive requests against a fixed connection set. -/

def sockA : NetSocket := ⟨some ⟨some "203.0.113.5", none⟩⟩

/-- `n` live sockets all from `sockA`'s IP. -/
def ioOf (n : Nat) : List NetSocket := List.replicate n sockA

/-- `ipRequestCounts` state after `n` successive `clientBlocked` calls by
`sockA` in one 60-second window (connection set fixed at one socket). -/
def reqAfter : Nat → (String → Nat)
  | 0 => clearRequestCounts
  | n + 1 => (clientBlocked (ioOf 1) (reqAfter n) sockA).reqCounts

/-- Whether the `n`-th successive request in a window (1-based) is
blocked. -/
def requestBlockedAt (n : Nat) : Bool :=
  (clientBlocked (ioOf 1) (reqAfter (n - 1)) sockA).blocked

/-- Whether a fresh-window request is blocked when the identity has `n`
live connections (the requesting socket among them). -/
def connBlockedWith (n : Nat) : Bool :=
  (clientBlocked (ioOf n) clearRequestCounts sockA).blocked

/-! ## Connection lifecycle manager (connectionWrapper.js)

`TikTokConnectionWrapper` is embedded as an explicit state record plus a
step function over environment events.  The module-global
`globalConnectionCount` lives in the state.  The wrapper's own
bookkeeping of in-flight `connect()` calls and armed `setTimeout`
reconnect timers is made explicit (`inFlightInit`/`inFlightRe`,
`pendingTimers`) so that the environment can only deliver a connect
outcome or a timer firing when one is actually outstanding; events with
nothing outstanding are no-ops.  Observable actions (event emissions,
`connection.disconnect()` calls, `connect()` invocations, timer arming
with its delay) are collected as outputs. -/

def maxReconnectAttempts : Nat := 5

def maxReconnectWaitMs : Nat := 32000

/-- Wrapper state: the private fields of `TikTokConnectionWrapper`
(lines 111–116), the connection's own connected flag (what
`connection.getState()?.isConnected` reports), the module-global
connection counter, and the explicit in-flight/timer bookkeeping. -/
structure W where
  clientDisconnected : Bool
  reconnectEnabled : Bool
  reconnectCount : Nat
  reconnectWaitMs : Nat
  upstreamConnected : Bool
  globalCount : Int
  pendingTimers : Nat
  inFlightInit : Bool
  inFlightRe : Nat
deriving DecidableEq

/-- Freshly constructed wrapper at process start (constructor defaults,
`globalConnectionCount = 0`). -/
def initialState : W :=
  { clientDisconnected := false
    reconnectEnabled := true
    reconnectCount := 0
    reconnectWaitMs := 1000
    upstreamConnected := false
    globalCount := 0
    pendingTimers := 0
    inFlightInit := false
    inFlightRe := 0 }

/-- Observable outputs of a step. -/
inductive Out where
  | emitConnected
  | emitDisconnected (msg : String)
  | emitStreamEnd
  | upstreamClose
  | connectInvoked (isReconnect : Bool)
  | timerArmed (delayMs : Nat)
deriving DecidableEq

/-- Environment events delivered to the wrapper: the owner's calls, the
resolution of an in-flight `connect()` promise, upstream connection
events, and a reconnect timer firing. -/
inductive Ev where
  | callConnect
  | connectOk (isReconnect : Bool)
  | connectFail (isReconnect : Bool) (msg : String)
  | streamEnd
  | upstreamDisconnected
  | timerFire
  | clientDisconnect
deriving DecidableEq

/-- `globalConnectionCount += 1` (line 149). -/
def incGlobal (g : Int) : Int := g + 1

/-- `globalConnectionCount = Math.max(0, globalConnectionCount - 1)`
(line 134). -/
def decGlobal (g : Int) : Int := max 0 (g - 1)

/-- `getGlobalConnectionCount` (line 214). -/
def getGlobalConnectionCount (s : W) : Int := s.globalCount

/-- `disconnect()` (lines 193–203): no-op when already
client-disconnected; else mark disconnected, disable reconnection, and
actively close the connection only if it currently reports itself
connected. -/
def disconnectFn (s : W) : W × List Out :=
  if s.clientDisconnected then (s, [])
  else
    let s1 := { s with clientDisconnected := true, reconnectEnabled := false }
    if s1.upstreamConnected then
      ({ s1 with upstreamConnected := false }, [Out.upstreamClose])
    else (s1, [])

/-- `#scheduleReconnect(reason)` (lines 174–191): abandon (emitting the
composed reason) when reconnection is disabled or the attempt cap is
reached; otherwise arm a `setTimeout` with the current wait. -/
def scheduleReconnect (s : W) (reason : String) : W × List Out :=
  if s.reconnectEnabled = false ∨ maxReconnectAttempts ≤ s.reconnectCount then
    (s, [Out.emitDisconnected ("Connection lost. " ++ reason)])
  else
    ({ s with pendingTimers := s.pendingTimers + 1 }, [Out.timerArmed s.reconnectWaitMs])

/-- Success branch of `connect` (lines 147–163): count the connection,
reset the backoff variables, then either self-terminate through
`disconnect()` when the client disconnected mid-flight, or emit
`connected` on an initial (non-reconnect) attempt. -/
def connectSuccess (s : W) (isReconnect : Bool) : W × List Out :=
  let s1 := { s with globalCount := incGlobal s.globalCount
                     reconnectCount := 0
                     reconnectWaitMs := 1000
                     upstreamConnected := true }
  if s1.clientDisconnected then disconnectFn s1
  else if isReconnect then (s1, []) else (s1, [Out.emitConnected])

/-- Failure branch of `connect` (lines 164–171): a failed reconnect
feeds the scheduler; a failed initial attempt emits `disconnected`. -/
def connectFailure (s : W) (isReconnect : Bool) (msg : String) : W × List Out :=
  if isReconnect then scheduleReconnect s msg
  else (s, [Out.emitDisconnected msg])

/-- A reconnect timer firing (lines 183–190): rechecks the enable flag
and attempt cap at fire time; on pass, bumps the attempt count, doubles
the wait (capped), and invokes `connect(true)`. -/
def timerFireFn (s : W) : W × List Out :=
  match s.pendingTimers with
  | 0 => (s, [])
  | n + 1 =>
      let s1 := { s with pendingTimers := n }
      if s1.reconnectEnabled = false ∨ maxReconnectAttempts ≤ s1.reconnectCount then
        (s1, [])
      else
        ({ s1 with reconnectCount := s1.reconnectCount + 1
                   reconnectWaitMs := min (s1.reconnectWaitMs * 2) maxReconnectWaitMs
                   inFlightRe := s1.inFlightRe + 1 },
         [Out.connectInvoked true])

/-- The upstream `disconnected` handler (lines 133–137): floored
decrement of the global counter, then the reconnect scheduler (default
reason `'Unknown error'`). -/
def upstreamDisconnectedEv (s : W) : W × List Out :=
  scheduleReconnect
    { s with globalCount := decGlobal s.globalCount, upstreamConnected := false }
    "Unknown error"

/-- The upstream `streamEnd` handler (lines 127–131): permanently
disable reconnection and emit `streamEnd`. -/
def streamEndEv (s : W) : W × List Out :=
  ({ s with reconnectEnabled := false }, [Out.emitStreamEnd])

/-- One step of the wrapper: dispatch an environment event to the
corresponding handler.  Connect outcomes resolve a matching in-flight
attempt and are no-ops when none is outstanding; a timer firing consumes
an armed timer. -/
def step (s : W) : Ev → W × List Out
  | Ev.callConnect => ({ s with inFlightInit := true }, [Out.connectInvoked false])
  | Ev.connectOk isReconnect =>
      if isReconnect then
        match s.inFlightRe with
        | 0 => (s, [])
        | n + 1 => connectSuccess { s with inFlightRe := n } true
      else
        if s.inFlightInit then connectSuccess { s with inFlightInit := false } false
        else (s, [])
  | Ev.connectFail isReconnect msg =>
      if isReconnect then
        match s.inFlightRe with
        | 0 => (s, [])
        | n + 1 => connectFailure { s with inFlightRe := n } true msg
      else
        if s.inFlightInit then connectFailure { s with inFlightInit := false } false msg
        else (s, [])
  | Ev.streamEnd => streamEndEv s
  | Ev.upstreamDisconnected => upstreamDisconnectedEv s
  | Ev.timerFire => timerFireFn s
  | Ev.clientDisconnect => disconnectFn s

/-- Run the wrapper over a list of environment events, collecting all
outputs in order. -/
def run (s : W) : List Ev → W × List Out
  | [] => (s, [])
  | e :: es => ((run (step s e).1 es).1, (step s e).2 ++ (run (step s e).1 es).2)

/-- Recognises a reconnect attempt (`connect(true)` invocation). -/
def isReAttempt : Out → Bool
  | Out.connectInvoked true => true
  | _ => false

/-- Recognises a `disconnected` emission to the owner. -/
def isDiscEmit : Out → Bool
  | Out.emitDisconnected _ => true
  | _ => false

/-- Number of reconnect attempts among the outputs. -/
def countRe : List Out → Nat
  | [] => 0
  | o :: os => (if isReAttempt o then 1 else 0) + countRe os

/-- Number of `disconnected` emissions among the outputs. -/
def countDisc : List Out → Nat
  | [] => 0
  | o :: os => (if isDiscEmit o then 1 else 0) + countDisc os

/-- The delays of the reconnect timers armed, in order. -/
def armedDelays (outs : List Out) : List Nat :=
  outs.filterMap fun o => match o with
    | Out.timerArmed d => some d
    | _ => none

/-- Whether an event is a successful connect resolution. -/
def isOkEv : Ev → Bool
  | Ev.connectOk _ => true
  | _ => false

/-- Whether an event can trigger a `disconnected` emission (a connect
failure or an upstream `disconnected` signal). -/
def isDiscTrigger : Ev → Bool
  | Ev.connectFail _ _ => true
  | Ev.upstreamDisconnected => true
  | _ => false

/-- Number of `disconnected`-emission triggers among the events. -/
def countTrigger : List Ev → Nat
  | [] => 0
  | e :: es => (if isDiscTrigger e then 1 else 0) + countTrigger es

/-- The canonical consecutive-failure reconnect chain: one upstream
`disconnected` signal, then `n` rounds of the armed timer firing and the
resulting reconnect attempt failing. -/
def chainTrace (n : Nat) : List Ev :=
  Ev.upstreamDisconnected :: (List.replicate n [Ev.timerFire, Ev.connectFail true "e"]).flatten

/-- Recognises any `connect()` invocation (initial or reconnect). -/
def isInvoke : Out → Bool
  | Out.connectInvoked _ => true
  | _ => false

/-- Number of `connect()` invocations among the outputs. -/
def countInvoke : List Out → Nat
  | [] => 0
  | o :: os => (if isInvoke o then 1 else 0) + countInvoke os

/-- Whether an event is the owner calling `connect()`. -/
def isCallEv : Ev → Bool
  | Ev.callConnect => true
  | _ => false

/-- The global-counter mutations, as standalone operations (the only two
writes to `globalConnectionCount` in connectionWrapper.js). -/
inductive CounterOp where
  | inc
  | dec
deriving DecidableEq

def applyCounterOp (g : Int) : CounterOp → Int
  | CounterOp.inc => incGlobal g
  | CounterOp.dec => decGlobal g

/-- Fold an arbitrary interleaving of increments and floored decrements
over the global connection counter. -/
def runCounter (g : Int) : List CounterOp → Int
  | [] => g
  | op :: ops => runCounter (applyCounterOp g op) ops

/-- The C1 scenario: the owner starts the initial `connect()`, the
client requests disconnection while it is pending, then the connect
attempt resolves successfully. -/
def pendingDisconnectTrace : List Ev :=
  [Ev.callConnect, Ev.clientDisconnect, Ev.connectOk false]

/-- The C9 counterexample scenario: the upstream ends the stream, then
two (spurious) upstream `disconnected` signals arrive. -/
def doubleDisconnectTrace : List Ev :=
  [Ev.streamEnd, Ev.upstreamDisconnected, Ev.upstreamDisconnected]

/-- A concrete mid-flight state: the client has already requested
disconnection while a reconnect attempt is in flight. -/
def midFlightState : W :=
  { clientDisconnected := true
    reconnectEnabled := false
    reconnectCount := 4
    reconnectWaitMs := 16000
    upstreamConnected := false
    globalCount := 2
    pendingTimers := 0
    inFlightInit := false
    inFlightRe := 1 }

/-- A concrete state whose reconnect attempts are exhausted. -/
def exhaustedState : W :=
  { initialState with reconnectCount := 5 }

/-! ## Theorems -/

/-- C1: when `disconnect()` is requested while the initial `connect()`
is pending and the attempt then succeeds, the code leaves the upstream
session connected: the success handler's `this.disconnect()` call
returns immediately because `clientDisconnected` is already set, so
`connection.disconnect()` is never invoked (`upstreamClose` never
happens) and the session ends connected — contradicting the claimed
teardown.  The other half of the claim does hold: no `connected` event
is emitted. -/
theorem c1_pending_disconnect_leaves_upstream_connected :
    (run initialState pendingDisconnectTrace).1.upstreamConnected = true ∧
    (run initialState pendingDisconnectTrace).1.clientDisconnected = true ∧
    Out.upstreamClose ∉ (run initialState pendingDisconnectTrace).2 ∧
    Out.emitConnected ∉ (run initialState pendingDisconnectTrace).2 := by
  decide

/-- C2 counterexample: the 6th request of a window is NOT blocked (the
claim says it is the first to be blocked).  `clientBlocked` compares the
pre-increment request count with a strict `> 5`, so the 6th call still
sees a stored count of 5. -/
theorem c2_sixth_request_not_blocked : requestBlockedAt 6 = false := by
  decide

/-- C2 amended: the 10th concurrent connection is allowed and the 11th
blocked; the 6th request of a 60-second window is still allowed and the
7th is the first blocked (the strict `> 5` check reads the
pre-increment count); after the 60-second clear a previously-blocked
identity is allowed again. -/
theorem c2_admission_thresholds :
    connBlockedWith 10 = false ∧
    connBlockedWith 11 = true ∧
    requestBlockedAt 5 = false ∧
    requestBlockedAt 6 = false ∧
    requestBlockedAt 7 = true ∧
    (clientBlocked (ioOf 1) clearRequestCounts sockA).blocked = false := by
  decide

/-- C5: `disconnect()` is idempotent — after one `clientDisconnect`
step, a second `clientDisconnect` step leaves the state unchanged and
produces no observable output (no duplicate teardown). -/
theorem c5_disconnect_idempotent (s : W) :
    step (step s Ev.clientDisconnect).1 Ev.clientDisconnect =
      ((step s Ev.clientDisconnect).1, []) := by
  by_cases h : s.clientDisconnected = true
  · simp [step, disconnectFn, h]
  · by_cases h2 : s.upstreamConnected = true <;>
      simp [step, disconnectFn, h, h2]

/-- C7: whenever the requesting socket's identity cannot be resolved,
`clientBlocked` fails open — it returns `false`, logs a warning, and
leaves the request counts untouched; and the resolution-failure cases
are exactly the claimed ones: a missing handshake, a missing or empty
handshake address, and a loopback marker address whose forwarded-address
header is missing or empty. -/
theorem c7_fail_open :
    (∀ (io : List NetSocket) (rc : String → Nat) (sock : NetSocket),
      getSocketIp sock = none →
        (clientBlocked io rc sock).blocked = false ∧
        (clientBlocked io rc sock).warned = true ∧
        (clientBlocked io rc sock).reqCounts = rc) ∧
    getSocketIp ⟨none⟩ = none ∧
    (∀ fwd : Option String, getSocketIp ⟨some ⟨none, fwd⟩⟩ = none) ∧
    (∀ fwd : Option String, getSocketIp ⟨some ⟨some "", fwd⟩⟩ = none) ∧
    getSocketIp ⟨some ⟨some "::1", none⟩⟩ = none ∧
    getSocketIp ⟨some ⟨some "::ffff:127.0.0.1", none⟩⟩ = none ∧
    getSocketIp ⟨some ⟨some "::1", some ""⟩⟩ = none := by
  refine ⟨fun io rc sock h => ?_, rfl, fun fwd => rfl, fun fwd => rfl, by decide, by decide, by decide⟩
  simp [clientBlocked, h]

/-- Witness for C7 at a concrete unresolvable socket (no handshake). -/
theorem c7_fail_open_witness :
    (clientBlocked [] clearRequestCounts ⟨none⟩).blocked = false ∧
    (clientBlocked [] clearRequestCounts ⟨none⟩).warned = true ∧
    (clientBlocked [] clearRequestCounts ⟨none⟩).reqCounts = clearRequestCounts :=
  c7_fail_open.1 [] clearRequestCounts ⟨none⟩ rfl

/-- C9 counterexample: a single execution in which the manager emits
`disconnected` twice — after `streamEnd` disables reconnection, each
further upstream `disconnected` signal makes `#scheduleReconnect` take
its abandon branch and emit `disconnected` again. -/
theorem c9_disconnected_emitted_twice :
    countDisc (run initialState doubleDisconnectTrace).2 = 2 := by
  decide

/-- C10: a connect success arriving while `clientDisconnected` is
already set still increments the global connection counter, still
resets `reconnectCount` to 0 and `reconnectWaitMs` to 1000 ms, the
incremented value is visible through `getGlobalConnectionCount`, and no
`connected` event is emitted. -/
theorem c10_neutralized_success_counts (s : W) (isReconnect : Bool)
    (h : s.clientDisconnected = true) :
    (connectSuccess s isReconnect).1.globalCount = incGlobal s.globalCount ∧
    (connectSuccess s isReconnect).1.reconnectCount = 0 ∧
    (connectSuccess s isReconnect).1.reconnectWaitMs = 1000 ∧
    getGlobalConnectionCount (connectSuccess s isReconnect).1 = s.globalCount + 1 ∧
    Out.emitConnected ∉ (connectSuccess s isReconnect).2 := by
  simp [connectSuccess, disconnectFn, h, getGlobalConnectionCount, incGlobal]

/-- Witness for C10 at `midFlightState`. -/
theorem c10_neutralized_success_counts_witness :
    (connectSuccess midFlightState true).1.globalCount = incGlobal midFlightState.globalCount ∧
    (connectSuccess midFlightState true).1.reconnectCount = 0 ∧
    (connectSuccess midFlightState true).1.reconnectWaitMs = 1000 ∧
    getGlobalConnectionCount (connectSuccess midFlightState true).1 = midFlightState.globalCount + 1 ∧
    Out.emitConnected ∉ (connectSuccess midFlightState true).2 :=
  c10_neutralized_success_counts midFlightState true rfl

/-! ### Shared structural lemmas about the step machine -/

theorem countRe_append (xs ys : List Out) :
    countRe (xs ++ ys) = countRe xs + countRe ys := by
  induction xs with
  | nil => simp [countRe]
  | cons o os ih => simp [countRe, ih]; omega

theorem countDisc_append (xs ys : List Out) :
    countDisc (xs ++ ys) = countDisc xs + countDisc ys := by
  induction xs with
  | nil => simp [countDisc]
  | cons o os ih => simp [countDisc, ih]; omega

theorem countInvoke_append (xs ys : List Out) :
    countInvoke (xs ++ ys) = countInvoke xs + countInvoke ys := by
  induction xs with
  | nil => simp [countInvoke]
  | cons o os ih => simp [countInvoke, ih]; omega

theorem run_fst_append (xs : List Ev) : ∀ (s : W) (ys : List Ev),
    (run s (xs ++ ys)).1 = (run (run s xs).1 ys).1 := by
  induction xs with
  | nil => intro s ys; simp [run]
  | cons e es ih => intro s ys; simp [run, ih]

/-- Each step changes `reconnectCount` by exactly the number of
reconnect attempts it makes (absent a connect success), and an attempt
is only made below the attempt cap. -/
theorem step_reconnect_attempt (s : W) (e : Ev) (h : isOkEv e = false) :
    (step s e).1.reconnectCount = s.reconnectCount + countRe (step s e).2 ∧
    (countRe (step s e).2 = 0 ∨
      (countRe (step s e).2 = 1 ∧ s.reconnectCount < maxReconnectAttempts)) := by
  cases e with
  | callConnect => simp [step, countRe, isReAttempt]
  | connectOk b => simp [isOkEv] at h
  | connectFail b msg =>
      cases b with
      | false =>
          by_cases hf : s.inFlightInit = true <;>
            simp [step, hf, connectFailure, countRe, isReAttempt]
      | true =>
          cases hn : s.inFlightRe with
          | zero => simp [step, hn, countRe]
          | succ n =>
              simp only [step, hn, connectFailure, scheduleReconnect, if_true]
              split <;> simp [countRe, isReAttempt]
  | streamEnd => simp [step, streamEndEv, countRe, isReAttempt]
  | upstreamDisconnected =>
      simp only [step, upstreamDisconnectedEv, scheduleReconnect]
      split <;> simp [countRe, isReAttempt]
  | timerFire =>
      cases hn : s.pendingTimers with
      | zero => simp [step, timerFireFn, hn, countRe]
      | succ n =>
          simp only [step, timerFireFn, hn]
          split
          · simp [countRe]
          · rename_i hcond
            simp only [not_or] at hcond
            simp [countRe, isReAttempt, maxReconnectAttempts]
            have := hcond.2
            simp [maxReconnectAttempts] at this
            omega
  | clientDisconnect =>
      simp only [step, disconnectFn]
      split
      · simp [countRe]
      · split <;> simp [countRe, isReAttempt]

theorem run_reconnect_attempts_le (es : List Ev) : ∀ s : W,
    (es.all fun e => !isOkEv e) = true →
    countRe (run s es).2 ≤ maxReconnectAttempts - s.reconnectCount := by
  induction es with
  | nil => intro s _; simp [run, countRe]
  | cons e es ih =>
      intro s h
      simp only [List.all_cons, Bool.and_eq_true, Bool.not_eq_true'] at h
      obtain ⟨he, hes⟩ := h
      have hstep := step_reconnect_attempt s e he
      have ihs := ih (step s e).1 (by simpa [List.all_eq_true, Bool.not_eq_true'] using hes)
      simp only [run, countRe_append]
      rcases hstep with ⟨heq, h0 | ⟨h1, hlt⟩⟩ <;> omega

/-- C3: in any execution without an intervening connect success, the
manager makes at most `maxReconnectAttempts` (5) reconnect attempts;
and whenever `#scheduleReconnect` abandons (reconnection disabled or
attempt cap reached) it emits exactly one `disconnected` event carrying
the composed message `"Connection lost. " ++ reason`, arming no further
timer. -/
theorem c3_reconnect_attempts_bounded (es : List Ev)
    (h : (es.all fun e => !isOkEv e) = true) :
    countRe (run initialState es).2 ≤ maxReconnectAttempts ∧
    ∀ (s : W) (reason : String),
      s.reconnectEnabled = false ∨ maxReconnectAttempts ≤ s.reconnectCount →
      scheduleReconnect s reason =
        (s, [Out.emitDisconnected ("Connection lost. " ++ reason)]) := by
  constructor
  · simpa [initialState] using run_reconnect_attempts_le es initialState h
  · intro s reason hs
    simp only [scheduleReconnect]
    rw [if_pos hs]

/-- Witness for C3: a seven-round consecutive failure chain stays within
five attempts, and a concrete exhausted state abandons with the composed
message. -/
theorem c3_reconnect_attempts_bounded_witness :
    countRe (run initialState (chainTrace 7)).2 ≤ maxReconnectAttempts ∧
    scheduleReconnect exhaustedState "err" =
      (exhaustedState, [Out.emitDisconnected ("Connection lost. " ++ "err")]) := by
  have h := c3_reconnect_attempts_bounded (chainTrace 7) (by decide)
  exact ⟨h.1, h.2 exhaustedState "err" (Or.inr (by decide))⟩

/-- C4: along the canonical consecutive-failure chain the armed
reconnect delays are exactly `min (1000 * 2^k) 32000` for successive
`k`, that rule enumerates the claimed sequence 1000, 2000, 4000, 8000,
16000, 32000 ms, and any connect success resets `reconnectWaitMs` to
1000 ms and `reconnectCount` to 0. -/
theorem c4_backoff_sequence :
    armedDelays (run initialState (chainTrace 5)).2 =
      (List.range 5).map (fun k => min (1000 * 2 ^ k) maxReconnectWaitMs) ∧
    (List.range 6).map (fun k => min (1000 * 2 ^ k) maxReconnectWaitMs) =
      [1000, 2000, 4000, 8000, 16000, 32000] ∧
    (∀ (s : W) (isReconnect : Bool),
      (connectSuccess s isReconnect).1.reconnectWaitMs = 1000 ∧
      (connectSuccess s isReconnect).1.reconnectCount = 0) := by
  refine ⟨by decide, by decide, fun s isReconnect => ?_⟩
  cases isReconnect <;>
    by_cases h : s.clientDisconnected = true <;>
      by_cases h2 : s.upstreamConnected = true <;>
        simp [connectSuccess, disconnectFn, h, h2]

/-- The step machine never lets the global connection counter become
negative. -/
theorem step_globalCount_nonneg (s : W) (e : Ev) (h : 0 ≤ s.globalCount) :
    0 ≤ (step s e).1.globalCount := by
  cases e with
  | callConnect => simpa [step] using h
  | connectOk b =>
      cases b with
      | false =>
          by_cases hf : s.inFlightInit = true <;>
            simp only [step, hf, if_true, if_false, connectSuccess, disconnectFn, incGlobal] <;>
            (repeat' split) <;> simp <;> omega
      | true =>
          cases hn : s.inFlightRe with
          | zero => simpa [step, hn] using h
          | succ n =>
              simp only [step, hn, connectSuccess, disconnectFn, incGlobal]
              (repeat' split) <;> simp <;> omega
  | connectFail b msg =>
      cases b with
      | false =>
          by_cases hf : s.inFlightInit = true <;>
            simp only [step, hf, if_true, if_false, connectFailure, scheduleReconnect] <;>
            (repeat' split) <;> simpa using h
      | true =>
          cases hn : s.inFlightRe with
          | zero => simpa [step, hn] using h
          | succ n =>
              simp only [step, hn, connectFailure, scheduleReconnect, if_true]
              (repeat' split) <;> simpa using h
  | streamEnd => simpa [step, streamEndEv] using h
  | upstreamDisconnected =>
      simp only [step, upstreamDisconnectedEv, scheduleReconnect, decGlobal]
      (repeat' split) <;> simp
  | timerFire =>
      cases hn : s.pendingTimers with
      | zero => simpa [step, timerFireFn, hn] using h
      | succ n =>
          simp only [step, timerFireFn, hn]
          (repeat' split) <;> simpa using h
  | clientDisconnect =>
      simp only [step, disconnectFn]
      (repeat' split) <;> simpa using h

theorem run_globalCount_nonneg (es : List Ev) : ∀ s : W, 0 ≤ s.globalCount →
    0 ≤ (run s es).1.globalCount := by
  induction es with
  | nil => intro s h; simpa [run] using h
  | cons e es ih => intro s h; simpa [run] using ih _ (step_globalCount_nonneg s e h)

theorem runCounter_nonneg (ops : List CounterOp) : ∀ g : Int, 0 ≤ g →
    0 ≤ runCounter g ops := by
  induction ops with
  | nil => intro g h; simpa [runCounter] using h
  | cons op ops ih =>
      intro g h
      refine ih _ ?_
      cases op <;> simp [applyCounterOp, incGlobal, decGlobal] <;> omega

/-- C6: the global connection counter never goes negative — neither for
an arbitrary interleaving of the code's two counter mutations
(increment and floored decrement) starting from 0, nor along any
execution of the step machine from the initial state. -/
theorem c6_global_count_nonneg :
    (∀ ops : List CounterOp, 0 ≤ runCounter 0 ops) ∧
    (∀ es : List Ev, 0 ≤ (run initialState es).1.globalCount) :=
  ⟨fun ops => runCounter_nonneg ops 0 le_rfl,
   fun es => run_globalCount_nonneg es initialState (by simp [initialState])⟩

/-- Once `reconnectEnabled` is cleared it stays cleared: no handler ever
re-enables reconnection. -/
theorem step_enabled_mono (s : W) (e : Ev) (h : s.reconnectEnabled = false) :
    (step s e).1.reconnectEnabled = false := by
  cases e with
  | callConnect => simpa [step] using h
  | connectOk b =>
      cases b with
      | false =>
          by_cases hf : s.inFlightInit = true <;>
            simp only [step, hf, if_true, if_false, connectSuccess, disconnectFn] <;>
            (repeat' split) <;> simpa using h
      | true =>
          cases hn : s.inFlightRe with
          | zero => simpa [step, hn] using h
          | succ n =>
              simp only [step, hn, connectSuccess, disconnectFn]
              (repeat' split) <;> simpa using h
  | connectFail b msg =>
      cases b with
      | false =>
          by_cases hf : s.inFlightInit = true <;>
            simp only [step, hf, if_true, if_false, connectFailure, scheduleReconnect] <;>
            (repeat' split) <;> simpa using h
      | true =>
          cases hn : s.inFlightRe with
          | zero => simpa [step, hn] using h
          | succ n =>
              simp only [step, hn, connectFailure, scheduleReconnect, if_true]
              (repeat' split) <;> simpa using h
  | streamEnd => simp [step, streamEndEv]
  | upstreamDisconnected =>
      simp only [step, upstreamDisconnectedEv, scheduleReconnect]
      (repeat' split) <;> simpa using h
  | timerFire =>
      cases hn : s.pendingTimers with
      | zero => simpa [step, timerFireFn, hn] using h
      | succ n =>
          simp only [step, timerFireFn, hn]
          (repeat' split) <;> simpa using h
  | clientDisconnect =>
      simp only [step, disconnectFn]
      (repeat' split) <;> simpa using h

/-- With reconnection disabled, a step makes no reconnect attempt. -/
theorem step_no_attempt_disabled (s : W) (e : Ev) (h : s.reconnectEnabled = false) :
    countRe (step s e).2 = 0 := by
  cases e with
  | callConnect => simp [step, countRe, isReAttempt]
  | connectOk b =>
      cases b with
      | false =>
          by_cases hf : s.inFlightInit = true <;>
            simp only [step, hf, if_true, if_false, connectSuccess, disconnectFn] <;>
            (repeat' split) <;> simp [countRe, isReAttempt]
      | true =>
          cases hn : s.inFlightRe with
          | zero => simp [step, hn, countRe]
          | succ n =>
              simp only [step, hn, connectSuccess, disconnectFn]
              (repeat' split) <;> simp [countRe, isReAttempt]
  | connectFail b msg =>
      cases b with
      | false =>
          by_cases hf : s.inFlightInit = true <;>
            simp only [step, hf, if_true, if_false, connectFailure, scheduleReconnect] <;>
            (repeat' split) <;> simp [countRe, isReAttempt]
      | true =>
          cases hn : s.inFlightRe with
          | zero => simp [step, hn, countRe]
          | succ n =>
              simp only [step, hn, connectFailure, scheduleReconnect, if_true]
              split
              · simp [countRe, isReAttempt]
              · rename_i hcond
                simp only [not_or] at hcond
                exact absurd h (by simpa using hcond.1)
  | streamEnd => simp [step, streamEndEv, countRe, isReAttempt]
  | upstreamDisconnected =>
      simp only [step, upstreamDisconnectedEv, scheduleReconnect]
      split
      · simp [countRe, isReAttempt]
      · rename_i hcond
        simp only [not_or] at hcond
        exact absurd h (by simpa using hcond.1)
  | timerFire =>
      cases hn : s.pendingTimers with
      | zero => simp [step, timerFireFn, hn, countRe]
      | succ n =>
          simp only [step, timerFireFn, hn]
          split
          · simp [countRe]
          · rename_i hcond
            simp only [not_or] at hcond
            exact absurd h (by simpa using hcond.1)
  | clientDisconnect =>
      simp only [step, disconnectFn]
      (repeat' split) <;> simp [countRe, isReAttempt]

/-- With reconnection disabled and the owner not calling `connect()`,
a step invokes `connect` in no way at all. -/
theorem step_no_invoke_disabled (s : W) (e : Ev) (h : s.reconnectEnabled = false)
    (hc : isCallEv e = false) :
    countInvoke (step s e).2 = 0 := by
  cases e with
  | callConnect => simp [isCallEv] at hc
  | connectOk b =>
      cases b with
      | false =>
          by_cases hf : s.inFlightInit = true <;>
            simp only [step, hf, if_true, if_false, connectSuccess, disconnectFn] <;>
            (repeat' split) <;> simp [countInvoke, isInvoke]
      | true =>
          cases hn : s.inFlightRe with
          | zero => simp [step, hn, countInvoke]
          | succ n =>
              simp only [step, hn, connectSuccess, disconnectFn]
              (repeat' split) <;> simp [countInvoke, isInvoke]
  | connectFail b msg =>
      cases b with
      | false =>
          by_cases hf : s.inFlightInit = true <;>
            simp only [step, hf, if_true, if_false, connectFailure, scheduleReconnect] <;>
            (repeat' split) <;> simp [countInvoke, isInvoke]
      | true =>
          cases hn : s.inFlightRe with
          | zero => simp [step, hn, countInvoke]
          | succ n =>
              simp only [step, hn, connectFailure, scheduleReconnect, if_true]
              split <;> simp [countInvoke, isInvoke]
  | streamEnd => simp [step, streamEndEv, countInvoke, isInvoke]
  | upstreamDisconnected =>
      simp only [step, upstreamDisconnectedEv, scheduleReconnect]
      split
      · simp [countInvoke, isInvoke]
      · rename_i hcond
        simp only [not_or] at hcond
        exact absurd h (by simpa using hcond.1)
  | timerFire =>
      cases hn : s.pendingTimers with
      | zero => simp [step, timerFireFn, hn, countInvoke]
      | succ n =>
          simp only [step, timerFireFn, hn]
          split
          · simp [countInvoke]
          · rename_i hcond
            simp only [not_or] at hcond
            exact absurd h (by simpa using hcond.1)
  | clientDisconnect =>
      simp only [step, disconnectFn]
      (repeat' split) <;> simp [countInvoke, isInvoke]

theorem run_no_attempt_disabled (es : List Ev) : ∀ s : W,
    s.reconnectEnabled = false → countRe (run s es).2 = 0 := by
  induction es with
  | nil => intro s _; simp [run, countRe]
  | cons e es ih =>
      intro s h
      simp only [run, countRe_append]
      rw [step_no_attempt_disabled s e h, ih _ (step_enabled_mono s e h)]

theorem run_no_invoke_disabled (es : List Ev) : ∀ s : W,
    s.reconnectEnabled = false → (es.all fun e => !isCallEv e) = true →
    countInvoke (run s es).2 = 0 := by
  induction es with
  | nil => intro s _ _; simp [run, countInvoke]
  | cons e es ih =>
      intro s h hall
      simp only [List.all_cons, Bool.and_eq_true, Bool.not_eq_true'] at hall
      simp only [run, countInvoke_append]
      rw [step_no_invoke_disabled s e h hall.1,
        ih _ (step_enabled_mono s e h)
          (by simpa [List.all_eq_true, Bool.not_eq_true'] using hall.2)]

/-- C8: once the upstream has signalled `streamEnd`, no later event —
including spurious upstream `disconnected` signals and armed timers
firing — produces a reconnect attempt; and as long as the owner does
not itself call `connect()` again, `connect` is not invoked at all. -/
theorem c8_no_reconnect_after_streamEnd (es1 es2 : List Ev) :
    countRe (run (run initialState (es1 ++ [Ev.streamEnd])).1 es2).2 = 0 ∧
    ((es2.all fun e => !isCallEv e) = true →
      countInvoke (run (run initialState (es1 ++ [Ev.streamEnd])).1 es2).2 = 0) := by
  have hen : (run initialState (es1 ++ [Ev.streamEnd])).1.reconnectEnabled = false := by
    rw [run_fst_append]
    simp [run, step, streamEndEv]
  exact ⟨run_no_attempt_disabled es2 _ hen,
    fun hall => run_no_invoke_disabled es2 _ hen hall⟩

/-- Witness for C8: after `streamEnd`, a spurious upstream disconnect
plus a timer firing yields no reconnect attempt and no `connect`
invocation. -/
theorem c8_no_reconnect_after_streamEnd_witness :
    countRe (run (run initialState ([] ++ [Ev.streamEnd])).1
      [Ev.upstreamDisconnected, Ev.timerFire]).2 = 0 ∧
    countInvoke (run (run initialState ([] ++ [Ev.streamEnd])).1
      [Ev.upstreamDisconnected, Ev.timerFire]).2 = 0 := by
  have h := c8_no_reconnect_after_streamEnd [] [Ev.upstreamDisconnected, Ev.timerFire]
  exact ⟨h.1, h.2 (by decide)⟩

/-- Each step emits at most one `disconnected`, and only while
processing a connect failure or an upstream `disconnected` signal. -/
theorem step_disc_le (s : W) (e : Ev) :
    countDisc (step s e).2 ≤ if isDiscTrigger e then 1 else 0 := by
  cases e with
  | callConnect => simp [step, countDisc, isDiscEmit, isDiscTrigger]
  | connectOk b =>
      cases b with
      | false =>
          by_cases hf : s.inFlightInit = true <;>
            simp only [step, hf, if_true, if_false, connectSuccess, disconnectFn] <;>
            (repeat' split) <;> simp_all [countDisc, isDiscEmit, isDiscTrigger]
      | true =>
          cases hn : s.inFlightRe with
          | zero => simp [step, hn, countDisc, isDiscTrigger]
          | succ n =>
              simp only [step, hn, connectSuccess, disconnectFn]
              (repeat' split) <;> simp_all [countDisc, isDiscEmit, isDiscTrigger]
  | connectFail b msg =>
      cases b with
      | false =>
          by_cases hf : s.inFlightInit = true <;>
            simp only [step, hf, if_true, if_false, connectFailure, scheduleReconnect] <;>
            (repeat' split) <;> simp_all [countDisc, isDiscEmit, isDiscTrigger]
      | true =>
          cases hn : s.inFlightRe with
          | zero => simp [step, hn, countDisc, isDiscTrigger]
          | succ n =>
              simp only [step, hn, connectFailure, scheduleReconnect, if_true]
              (repeat' split) <;> simp_all [countDisc, isDiscEmit, isDiscTrigger]
  | streamEnd => simp [step, streamEndEv, countDisc, isDiscEmit, isDiscTrigger]
  | upstreamDisconnected =>
      simp only [step, upstreamDisconnectedEv, scheduleReconnect]
      (repeat' split) <;> simp_all [countDisc, isDiscEmit, isDiscTrigger]
  | timerFire =>
      cases hn : s.pendingTimers with
      | zero => simp [step, timerFireFn, hn, countDisc, isDiscTrigger]
      | succ n =>
          simp only [step, timerFireFn, hn]
          (repeat' split) <;> simp_all [countDisc, isDiscEmit, isDiscTrigger]
  | clientDisconnect =>
      simp only [step, disconnectFn]
      (repeat' split) <;> simp_all [countDisc, isDiscEmit, isDiscTrigger]

theorem run_disc_le (es : List Ev) : ∀ s : W,
    countDisc (run s es).2 ≤ countTrigger es := by
  induction es with
  | nil => intro s; simp [run, countDisc, countTrigger]
  | cons e es ih =>
      intro s
      simp only [run, countDisc_append, countTrigger]
      have h1 := step_disc_le s e
      have h2 := ih (step s e).1
      split at h1 <;> split <;> omega

/-- C9 amended: the manager emits `disconnected` at most once per
triggering event — each connect failure or upstream `disconnected`
signal accounts for at most one emission — so it is emitted at most
once in any execution with at most one such trigger after abandonment
becomes possible; it is not at-most-once per execution outright
(see the counterexample). -/
theorem c9_disconnected_per_trigger (es : List Ev) :
    countDisc (run initialState es).2 ≤ countTrigger es :=
  run_disc_le es initialState

end TikTokChatReader
